import Mathlib

/-!
Verification development for the mapTruth_AI repository.

The repository contains three near-duplicate Python pipelines
(`mapTruth.py`, `mapTruth_AI.py`, `mapTruth_fastapi.py`) that resolve a
Google Maps URL to a place id, fetch place details, and classify each
review with a language model.  This file shallowly embeds the data model
and the functions the claims are about:

* JSON values (`Json`), Python `dict.get` (`jsonGet`), dict insertion with
  key override (`dictInsert`, `dictUpdate`);
* a model of the `json` standard library boundary: `json_loads` (a fuel
  based parser of a JSON fragment: null/true/false, integer numerals,
  strings with the two-character escapes and `\uXXXX`, arrays, objects
  with last-key-wins semantics, exactly as `json.loads` behaves on this
  fragment; float literals and non-ASCII `ensure_ascii` escaping are
  outside the modeled fragment) and `json_dumps_error` (the exact text
  `json.dumps` produces for the one-key dict `{"error": msg}`);
* the URL resolvers `get_place_id_from_url` (mapTruth.py /
  mapTruth_fastapi.py, identical code) and `extract_place_id` /
  `get_place_id_from_short_url` (mapTruth_AI.py), with every `re.search`
  pattern compiled by hand to an executable scanner (each pattern is
  deterministic: every `[^/]+` etc. run is followed by a character not in
  the class, so no backtracking ambiguity exists);
* `fetch_place_details`, `analyze_review`, the per-review classification
  step of the `/analyze` endpoint (`processReview`), the review loops of
  both orchestrators, and the `/health` endpoint.

Outbound HTTP and the language model are modeled as explicit environment
records (`HttpEnv`, `AIEnv`, `LLM`); the embedding additionally counts
the outbound calls each resolver path performs, which several claims are
about.
-/

/-- JSON values.  Numbers are modeled as integers: every numeric literal
appearing in this code base (authenticity scores, counts) is integral;
float payloads are outside the modeled fragment. -/
inductive Json where
  | null
  | bool (b : Bool)
  | num (n : Int)
  | str (s : String)
  | arr (elems : List Json)
  | obj (members : List (String × Json))
deriving Repr

/-- First-occurrence association lookup.  Objects built by the parser and
by the code keep keys unique (the parser inserts with override), so this
is Python dict lookup. -/
def lookupList : List (String × Json) → String → Option Json
  | [], _ => none
  | (k', v) :: t, k => if k' = k then some v else lookupList t k

/-- Python `d.get(k)` on a JSON value: `none` when the value is not an
object or the key is absent.  (In Python, calling `.get` on a non-dict
raises; call sites relying on that are noted where they occur.) -/
def jsonGet (j : Json) (k : String) : Option Json :=
  match j with
  | .obj kvs => lookupList kvs k
  | _ => none

/-- Python `d[k] = v`: replace the binding if the key is present,
append it otherwise. -/
def dictInsert (d : List (String × Json)) (k : String) (v : Json) : List (String × Json) :=
  if d.any (fun kv => kv.fst == k) then
    d.map (fun kv => if kv.fst = k then (k, v) else kv)
  else d ++ [(k, v)]

/-- Python `{**d, **ms}` tail: insert every binding of `ms` into `d` in
order, overriding existing keys — the semantics of the dict literal
`{"original_review": text, **parsed_analysis}` in mapTruth.py. -/
def dictUpdate (d : List (String × Json)) (ms : List (String × Json)) : List (String × Json) :=
  ms.foldl (fun acc kv => dictInsert acc kv.fst kv.snd) d

/-- JSON whitespace (exactly the four characters `json.loads` skips). -/
def skipWs : List Char → List Char
  | [] => []
  | c :: cs => if c == ' ' || c == '\t' || c == '\n' || c == '\r' then skipWs cs else c :: cs

/-- Value of a hexadecimal digit, as accepted after `\u` in a JSON string. -/
def hexVal (c : Char) : Option Nat :=
  if '0' ≤ c ∧ c ≤ '9' then some (c.toNat - 48)
  else if 'a' ≤ c ∧ c ≤ 'f' then some (c.toNat - 87)
  else if 'A' ≤ c ∧ c ≤ 'F' then some (c.toNat - 55)
  else none

/-- The two-character JSON string escapes. -/
def escDecode (e : Char) : Option Char :=
  if e = '"' then some '"'
  else if e = '\\' then some '\\'
  else if e = '/' then some '/'
  else if e = 'b' then some (Char.ofNat 8)
  else if e = 'f' then some (Char.ofNat 12)
  else if e = 'n' then some (Char.ofNat 10)
  else if e = 'r' then some (Char.ofNat 13)
  else if e = 't' then some (Char.ofNat 9)
  else none

/-- JSON string body scanner (after the opening quote): accumulates
decoded characters until the closing quote; rejects unescaped control
characters (strict mode of `json.loads`) and malformed escapes. -/
def parseStrAux (acc : List Char) : List Char → Option (String × List Char)
  | [] => none
  | c :: cs =>
    if c = '"' then some (String.mk acc.reverse, cs)
    else if c = '\\' then
      match cs with
      | [] => none
      | e :: cs2 =>
        if e = 'u' then
          match cs2 with
          | h1 :: h2 :: h3 :: h4 :: cs3 =>
            match hexVal h1, hexVal h2, hexVal h3, hexVal h4 with
            | some a, some b, some c2, some d =>
              parseStrAux (Char.ofNat (((a * 16 + b) * 16 + c2) * 16 + d) :: acc) cs3
            | _, _, _, _ => none
          | _ => none
        else
          match escDecode e with
          | some c2 => parseStrAux (c2 :: acc) cs2
          | none => none
    else if c.toNat < 32 then none
    else parseStrAux (c :: acc) cs

/-- Numeric value of a digit run. -/
def digitsVal (ds : List Char) : Nat := ds.foldl (fun a c => a * 10 + (c.toNat - 48)) 0

/-- Integer JSON numeral: optional minus sign, digit run without leading
zeros.  A numeral continuing with `.`, `e` or `E` is a float literal,
which is outside the modeled fragment (parse failure here, a float value
in Python). -/
def parseNumAux (cs : List Char) : Option (Json × List Char) :=
  let p : Bool × List Char :=
    match cs with
    | c :: t => if c = '-' then (true, t) else (false, cs)
    | [] => (false, cs)
  let ds := p.snd.takeWhile Char.isDigit
  if ds.isEmpty then none
  else if ds.length > 1 && ds.head? == some '0' then none
  else
    let rest := p.snd.drop ds.length
    let isFloat : Bool :=
      match rest with
      | c :: _ => c == '.' || c == 'e' || c == 'E'
      | [] => false
    if isFloat then none
    else some (Json.num (if p.fst then -(digitsVal ds : Int) else (digitsVal ds : Int)), rest)

/-- `strStartsWith cs p`: `p` is a literal prefix of `cs`. -/
def strStartsWith : List Char → List Char → Bool
  | _, [] => true
  | [], _ :: _ => false
  | c :: cs, p :: ps => c == p && strStartsWith cs ps

mutual

/-- Fuel-based JSON value parser; the fuel only bounds nesting (each unit
spent consumes at least one input character, so `length + 1` fuel never
exhausts on an input `json.loads` accepts within the modeled fragment). -/
def parseVal : Nat → List Char → Option (Json × List Char)
  | 0, _ => none
  | f + 1, cs =>
    match skipWs cs with
    | [] => none
    | c :: cs1 =>
      if c = '"' then (parseStrAux [] cs1).map (fun p => (Json.str p.fst, p.snd))
      else if c = '\x7b' then
        match skipWs cs1 with
        | '\x7d' :: cs2 => some (Json.obj [], cs2)
        | _ => parseMembers f [] cs1
      else if c = '[' then
        match skipWs cs1 with
        | ']' :: cs2 => some (Json.arr [], cs2)
        | _ => parseElems f [] cs1
      else if c = 't' then
        if strStartsWith cs1 "rue".data then some (Json.bool true, cs1.drop 3) else none
      else if c = 'f' then
        if strStartsWith cs1 "alse".data then some (Json.bool false, cs1.drop 4) else none
      else if c = 'n' then
        if strStartsWith cs1 "ull".data then some (Json.null, cs1.drop 3) else none
      else parseNumAux (c :: cs1)

/-- Object member list parser (after the opening brace of a non-empty
object); inserts with key override: `json.loads` keeps the last
occurrence of a duplicated key. -/
def parseMembers : Nat → List (String × Json) → List Char → Option (Json × List Char)
  | 0, _, _ => none
  | f + 1, acc, cs =>
    match skipWs cs with
    | c :: cs1 =>
      if c = '"' then
        match parseStrAux [] cs1 with
        | some (k, cs2) =>
          match skipWs cs2 with
          | ':' :: cs3 =>
            match parseVal f cs3 with
            | some (v, cs4) =>
              match skipWs cs4 with
              | ',' :: cs5 => parseMembers f (dictInsert acc k v) cs5
              | '\x7d' :: cs5 => some (Json.obj (dictInsert acc k v), cs5)
              | _ => none
            | none => none
          | _ => none
        | none => none
      else none
    | [] => none

/-- Array element list parser (after the opening bracket of a non-empty
array). -/
def parseElems : Nat → List Json → List Char → Option (Json × List Char)
  | 0, _, _ => none
  | f + 1, acc, cs =>
    match parseVal f cs with
    | some (v, cs1) =>
      match skipWs cs1 with
      | ',' :: cs2 => parseElems f (acc ++ [v]) cs2
      | ']' :: cs2 => some (Json.arr (acc ++ [v]), cs2)
      | _ => none
    | none => none

end

/-- Model of `json.loads`: parse one value, require only whitespace after
it; `none` models the `json.JSONDecodeError` the code catches. -/
def json_loads (s : String) : Option Json :=
  match parseVal (s.data.length + 1) s.data with
  | some (v, rest) => if (skipWs rest).isEmpty then some v else none
  | none => none

/-- Lower-case hexadecimal digit, as `json.dumps` prints in `\u00XX`. -/
def hexDigitChar (n : Nat) : Char := if n < 10 then Char.ofNat (48 + n) else Char.ofNat (87 + n)

/-- Escaping applied by `json.dumps` to one character of a string value:
`"` and `\` get a backslash, the five named control characters get their
short escapes, other control characters become `\u00XX`.  (`json.dumps`
additionally escapes non-ASCII characters as `\uXXXX` under
`ensure_ascii`; this model emits them literally, which `json.loads` — and
`json_loads` — accepts equally.) -/
def pyJsonEscape (c : Char) : List Char :=
  if c = '"' then ['\\', '"']
  else if c = '\\' then ['\\', '\\']
  else if c = Char.ofNat 8 then ['\\', 'b']
  else if c = Char.ofNat 12 then ['\\', 'f']
  else if c = Char.ofNat 10 then ['\\', 'n']
  else if c = Char.ofNat 13 then ['\\', 'r']
  else if c = Char.ofNat 9 then ['\\', 't']
  else if c.toNat < 32 then
    ['\\', 'u', '0', '0', hexDigitChar (c.toNat / 16), hexDigitChar (c.toNat % 16)]
  else [c]

/-- Character list of `json.dumps({"error": msg})`. -/
def errJsonChars (msg : String) : List Char :=
  "\x7b\"error\": \"".data ++ msg.data.flatMap pyJsonEscape ++ "\"\x7d".data

/-- `json.dumps({"error": str(e)})` as returned by `analyze_review` when
the model invocation raises (mapTruth.py line 111, mapTruth_fastapi.py
line 174). -/
def json_dumps_error (msg : String) : String := String.mk (errJsonChars msg)

/-- The language-model boundary: given the review text and reviewer name
(the two data embedded into the fixed prompt template), either the raw
text completion or a raised exception's message.  One call per review,
synchronous, no state. -/
abbrev LLM : Type := String → String → Except String String

/-- `analyze_review` (mapTruth.py lines 85-111, mapTruth_fastapi.py lines
131-174; the two prompt templates differ in wording but both are fixed
functions of the same two inputs): return the model completion, or
`json.dumps({"error": str(e)})` when the invocation raises.  Never
raises. -/
def analyze_review (llm : LLM) (review_text : String) (reviewer_name : String) : String :=
  match llm review_text reviewer_name with
  | .ok resp => resp
  | .error e => json_dumps_error e

/-- The pydantic response model `ReviewAnalysis` (mapTruth_fastapi.py
lines 48-56): exactly these eight fields, in particular no `raw_output`
field. -/
structure ReviewAnalysis where
  reviewer : String
  sentiment : String
  specificity : String
  authenticity_score : Int
  category : String
  recommendation : String
  summary : String
  original_review : String
deriving Repr, DecidableEq

/-- `parsed.get(k, d)` for a string-valued field.  A present value of a
non-string type would be handed to pydantic validation (which may raise);
that path is outside the modeled fragment, and theorems touching it carry
string-typedness hypotheses. -/
def getStrD (j : Json) (k : String) (d : String) : String :=
  match jsonGet j k with
  | some (Json.str s) => s
  | _ => d

/-- `parsed.get(k, d)` for the integer `authenticity_score` field. -/
def getIntD (j : Json) (k : String) (d : Int) : Int :=
  match jsonGet j k with
  | some (Json.num n) => n
  | _ => d

/-- The sentinel dict built in the `except` branch of the `/analyze` loop
(mapTruth_fastapi.py lines 236-245): sentinels for all seven model fields
plus the raw model text under `raw_output`. -/
def sentinelParsed (reviewer_name analysis : String) : Json :=
  Json.obj
    [("reviewer", Json.str reviewer_name),
     ("sentiment", Json.str "unknown"),
     ("specificity", Json.str "unknown"),
     ("authenticity_score", Json.num 5),
     ("category", Json.str "Unknown"),
     ("recommendation", Json.str "Unknown"),
     ("summary", Json.str "Analysis failed"),
     ("raw_output", Json.str analysis)]

/-- The `ReviewAnalysis(...)` construction (mapTruth_fastapi.py lines
247-256): each field is `parsed_analysis.get(key, default)`;
`original_review` is set from the input review text, and no `raw_output`
keyword is passed. -/
def buildReviewAnalysis (parsed : Json) (reviewer_name review_text : String) : ReviewAnalysis :=
  { reviewer := getStrD parsed "reviewer" reviewer_name
    sentiment := getStrD parsed "sentiment" "unknown"
    specificity := getStrD parsed "specificity" "unknown"
    authenticity_score := getIntD parsed "authenticity_score" 5
    category := getStrD parsed "category" "Unknown"
    recommendation := getStrD parsed "recommendation" "Unknown"
    summary := getStrD parsed "summary" "No analysis available"
    original_review := review_text }

/-- One iteration of the `/analyze` review loop (mapTruth_fastapi.py
lines 231-256): run `analyze_review`, `json.loads` the result (the bare
`except` turns any parse failure into the sentinel dict), then build the
`ReviewAnalysis`.  A successful parse to a non-object makes the
subsequent `.get` calls raise `AttributeError` in Python (propagated to
the endpoint handler as a 500); that path is outside the modeled
fragment and `buildReviewAnalysis`'s defaults stand in for it. -/
def processReview (llm : LLM) (review_text reviewer_name : String) : ReviewAnalysis :=
  let analysis := analyze_review llm review_text reviewer_name
  let parsed :=
    match json_loads analysis with
    | some p => p
    | none => sentinelParsed reviewer_name analysis
  buildReviewAnalysis parsed reviewer_name review_text

/-- ASCII fragment of the whitespace `str.strip()` removes. -/
def pyIsSpace (c : Char) : Bool :=
  c == ' ' || c == '\t' || c == '\n' || c == '\r' || c == Char.ofNat 11 || c == Char.ofNat 12

/-- `not review_text.strip()`: the text is empty or whitespace-only. -/
def isBlankText (s : String) : Bool := s.data.all pyIsSpace

/-- `review.get('text', '')`. -/
def reviewText (r : Json) : String := getStrD r "text" ""

/-- `review.get('author_name', 'Anonymous')`. -/
def reviewAuthor (r : Json) : String := getStrD r "author_name" "Anonymous"

/-- `details.get('reviews', [])` (both orchestrators).  A present
non-array value would make the `for` loop raise; modeled as the empty
list, which no claim touches. -/
def detailsReviews (details : Json) : List Json :=
  match jsonGet details "reviews" with
  | some (Json.arr l) => l
  | _ => []

/-- The `/analyze` review loop (mapTruth_fastapi.py lines 221-257): skip
reviews whose text strips to empty (`continue`), classify the rest in
order. -/
def analyze_place_reviews (llm : LLM) : List Json → List ReviewAnalysis
  | [] => []
  | review :: rest =>
    let review_text := reviewText review
    if isBlankText review_text then analyze_place_reviews llm rest
    else processReview llm review_text (reviewAuthor review) :: analyze_place_reviews llm rest

/-- One entry of the console orchestrator's `reviews_analysis`
(mapTruth.py lines 149-158): `analyze_review` is called with the default
reviewer name; `json.loads` failure yields `{"raw_output": analysis}`;
the appended dict is the literal `{"original_review": review_text,
**parsed_analysis}`, whose unpacking lets keys of `parsed_analysis`
override.  (Unpacking a parsed non-dict raises `TypeError` in Python,
caught by the top-level handler; modeled as an empty member list.) -/
def consoleEntry (llm : LLM) (review_text : String) : Json :=
  let analysis := analyze_review llm review_text "Anonymous"
  let parsed : List (String × Json) :=
    match json_loads analysis with
    | some (Json.obj kvs) => kvs
    | some _ => []
    | none => [("raw_output", Json.str analysis)]
  Json.obj (dictUpdate [("original_review", Json.str review_text)] parsed)

/-- The console orchestrator's review loop (mapTruth.py lines 144-158):
same blank-text `continue` as the service variant. -/
def console_reviews_analysis (llm : LLM) : List Json → List Json
  | [] => []
  | review :: rest =>
    let review_text := reviewText review
    if isBlankText review_text then console_reviews_analysis llm rest
    else consoleEntry llm review_text :: console_reviews_analysis llm rest

/-- `pat` occurs as a contiguous substring (Python `pat in s` on the
character lists). -/
def containsSubList (hay pat : List Char) : Bool :=
  match hay with
  | [] => pat.isEmpty
  | _ :: t => strStartsWith hay pat || containsSubList t pat

/-- Python `pat in s`. -/
def containsSub (s pat : String) : Bool := containsSubList s.data pat.data

/-- Scan every start position left to right and return the first
anchored match — the search order of `re.search`. -/
def scanFor {α : Type} (m : List Char → Option α) : List Char → Option α
  | [] => none
  | c :: cs =>
    match m (c :: cs) with
    | some r => some r
    | none => scanFor m cs

/-- Anchored match of a literal; returns the remainder. -/
def matchLit (lit : List Char) (cs : List Char) : Option (List Char) :=
  if strStartsWith cs lit then some (cs.drop lit.length) else none

/-- Anchored match of `[^/]+/`: since the class excludes `/`, the run is
exactly the characters up to the next `/` and no backtracking is
possible; fails when the run is empty or no `/` follows. -/
def matchSeg (cs : List Char) : Option (List Char) :=
  let run := cs.takeWhile (fun c => c != '/')
  if run.isEmpty then none
  else
    match cs.drop run.length with
    | '/' :: rest => some rest
    | _ => none

/-- Anchored match of a final greedy `([^/?]+)` capture group. -/
def capNoSlashQ (cs : List Char) : Option String :=
  let run := cs.takeWhile (fun c => c != '/' && c != '?')
  if run.isEmpty then none else some (String.mk run)

/-- Literal prefix shared by patterns 2-8 of `extract_place_id`
(`maps\.google\.com/maps/place/` — the escaped dots are literal). -/
def mapsPlaceLit : List Char := "maps.google.com/maps/place/".data

/-- Anchored form of the i-th pattern of `extract_place_id`
(mapTruth_AI.py lines 74-83); pattern 1 (`place_id=([^&]+)`) is also the
`pid_match` regex of `get_place_id_from_url` (mapTruth.py line 34,
mapTruth_fastapi.py line 84).  Each regex is deterministic (every greedy
class run is delimited by a character outside the class), so anchored
matching plus `scanFor` is exactly `re.search`. -/
def patAt : Nat → List Char → Option String
  | 1, cs =>
    (matchLit "place_id=".data cs).bind fun r =>
      let v := r.takeWhile (fun c => c != '&')
      if v.isEmpty then none else some (String.mk v)
  | 2, cs =>
    (matchLit mapsPlaceLit cs).bind fun r1 =>
    (matchSeg r1).bind capNoSlashQ
  | 3, cs =>
    (matchLit mapsPlaceLit cs).bind fun r1 =>
    (matchSeg r1).bind fun r2 =>
    (matchLit ['@'] r2).bind capNoSlashQ
  | 4, cs =>
    (matchLit mapsPlaceLit cs).bind fun r1 =>
    (matchSeg r1).bind fun r2 =>
    (matchLit "data=".data r2).bind capNoSlashQ
  | 5, cs =>
    (matchLit mapsPlaceLit cs).bind fun r1 =>
    (matchSeg r1).bind fun r2 =>
    (matchLit ['@'] r2).bind fun r3 =>
    (matchSeg r3).bind capNoSlashQ
  | 6, cs =>
    (matchLit mapsPlaceLit cs).bind fun r1 =>
    (matchSeg r1).bind fun r2 =>
    (matchLit ['@'] r2).bind fun r3 =>
    (matchSeg r3).bind fun r4 =>
    (matchSeg r4).bind capNoSlashQ
  | 7, cs =>
    (matchLit mapsPlaceLit cs).bind fun r1 =>
    (matchSeg r1).bind fun r2 =>
    (matchLit ['@'] r2).bind fun r3 =>
    (matchSeg r3).bind fun r4 =>
    (matchSeg r4).bind fun r5 =>
    (matchSeg r5).bind capNoSlashQ
  | 8, cs =>
    (matchLit mapsPlaceLit cs).bind fun r1 =>
    (matchSeg r1).bind fun r2 =>
    (matchLit ['@'] r2).bind fun r3 =>
    (matchSeg r3).bind fun r4 =>
    (matchSeg r4).bind fun r5 =>
    (matchSeg r5).bind fun r6 =>
    (matchSeg r6).bind capNoSlashQ
  | _, _ => none

/-- The `for pattern in patterns` loop of `extract_place_id`
(mapTruth_AI.py lines 85-90): first pattern with a match wins. -/
def tryPatterns (url : String) : Option String :=
  [1, 2, 3, 4, 5, 6, 7, 8].findSome? fun i => scanFor (patAt i) url.data

/-- A character of the class `[A-Za-z0-9_-]`. -/
def isIdChar (c : Char) : Bool := c.isAlphanum || c == '_' || c == '-'

/-- `re.search(r'([A-Za-z0-9_-]{20,})', url)` (mapTruth_AI.py line 92):
leftmost position whose maximal id-character run has length at least 20;
the greedy capture is that whole run. -/
def scan20 : List Char → Option String
  | [] => none
  | c :: cs =>
    let run := (c :: cs).takeWhile isIdChar
    if run.length ≥ 20 then some (String.mk run) else scan20 cs

/-- Environment for the two outbound HTTP calls `get_place_id_from_url`
can make: the redirect-following `requests.get(url, allow_redirects=True,
timeout=10)` (final URL, or the caught `RequestException`) and the
find-place-from-text call (parsed JSON body; its network/parse errors are
uncaught in the source and outside the modeled fragment). -/
structure HttpEnv where
  redirect : String → Except String String
  findPlace : String → Json

/-- Result of `get_place_id_from_url` together with how many outbound
calls of each kind the run performed. -/
structure ResolveResult where
  pid : Option String
  redirectCalls : Nat
  findCalls : Nat
deriving Repr, DecidableEq

/-- The find-place response handling (mapTruth.py lines 47-49): status
must equal `"OK"` and the candidate list must be non-empty, in which case
the first candidate's `place_id` is returned.  (`data["candidates"]` on a
status-OK body without the key raises `KeyError` in Python, uncaught;
modeled as no match.) -/
def findCandidate (data : Json) : Option String :=
  match jsonGet data "status" with
  | some (Json.str s) =>
    if s = "OK" then
      match jsonGet data "candidates" with
      | some (Json.arr (c :: _)) =>
        match jsonGet c "place_id" with
        | some (Json.str pid) => some pid
        | _ => none
      | _ => none
    else none
  | _ => none

/-- Anchored form of `/place/([^/@]+)` (mapTruth.py line 39): literal
`/place/` then a non-empty greedy run of characters other than `/` and
`@`. -/
def capPlaceSeg (cs : List Char) : Option String :=
  (matchLit "/place/".data cs).bind fun r =>
    let v := r.takeWhile (fun c => c != '/' && c != '@')
    if v.isEmpty then none else some (String.mk v)

/-- Lines 33-52 of mapTruth.py (83-102 of mapTruth_fastapi.py): the part
of `get_place_id_from_url` that runs on the (possibly redirected) URL —
`place_id=` parameter first, then the `/place/([^/@]+)` name lookup.
Returns the place id and the number of find-place calls made. -/
def resolveRest (env : HttpEnv) (api_key url : String) : Option String × Nat :=
  match scanFor (patAt 1) url.data with
  | some pid => (some pid, 0)
  | none =>
    match scanFor capPlaceSeg url.data with
    | some seg =>
      let place_name := String.map (fun c => if c = '+' then ' ' else c) seg
      let find_url :=
        "https://maps.googleapis.com/maps/api/place/findplacefromtext/json?input="
          ++ place_name ++ "&inputtype=textquery&fields=place_id&key=" ++ api_key
      (findCandidate (env.findPlace find_url), 1)
    | none => (none, 0)

/-- `get_place_id_from_url` (mapTruth.py lines 20-52 and, identically,
mapTruth_fastapi.py lines 69-102): if the URL contains a shortener
substring, perform one redirect-following call — a caught network error
there returns `None` for the whole function — and continue on the final
URL; otherwise continue on the input URL directly. -/
def get_place_id_from_url (env : HttpEnv) (url : String) (api_key : String) : ResolveResult :=
  if containsSub url "goo.gl" || containsSub url "maps.app.goo.gl" then
    match env.redirect url with
    | .error _ => ⟨none, 1, 0⟩
    | .ok url2 =>
      let r := resolveRest env api_key url2
      ⟨r.fst, 1, r.snd⟩
  else
    let r := resolveRest env api_key url
    ⟨r.fst, 0, r.snd⟩

/-- The fixed field projection of `fetch_place_details` (mapTruth.py
lines 58-62, mapTruth_fastapi.py lines 106-110). -/
def detailsFields : List String :=
  ["name", "formatted_address", "rating", "user_ratings_total",
   "price_level", "opening_hours", "website", "formatted_phone_number",
   "photo", "reviews"]

/-- The details URL built by `fetch_place_details`. -/
def detailsUrl (place_id api_key : String) : String :=
  "https://maps.googleapis.com/maps/api/place/details/json?place_id=" ++ place_id
    ++ "&fields=" ++ String.intercalate "," detailsFields ++ "&key=" ++ api_key

/-- `fetch_place_details` (mapTruth.py lines 57-81 and, identically,
mapTruth_fastapi.py lines 104-129).  The environment maps the request URL
to either the parsed JSON body or a caught `RequestException` (which
covers `raise_for_status` on HTTP errors and, in current `requests`,
body-decode errors).  A status field equal to `"OK"` returns
`details_data.get('result', {})` verbatim; anything else returns `None`.
(A non-dict body would make `.get` raise, uncaught — outside the modeled
fragment.) -/
def fetch_place_details (env : String → Except String Json) (place_id api_key : String) :
    Option Json :=
  match env (detailsUrl place_id api_key) with
  | .error _ => none
  | .ok details_data =>
    match jsonGet details_data "status" with
    | some (Json.str s) =>
      if s = "OK" then some ((jsonGet details_data "result").getD (Json.obj []))
      else none
    | _ => none

/-- `GET /health` (mapTruth_fastapi.py lines 182-185).  The handler body
is a constant dict; it takes the model backend as a parameter here only
to express that the response does not depend on it. -/
def health_check (_llm : LLM) : Json :=
  Json.obj [("status", Json.str "healthy"), ("ollama_connected", Json.bool true)]

/-- Environment for the two outbound calls of
`get_place_id_from_short_url` (mapTruth_AI.py): the redirect-following
`requests.get(short_url, allow_redirects=True)` and the geocoding call,
whose response is its HTTP status code plus parsed JSON body. -/
structure AIEnv where
  redirect : String → Except String String
  geocode : String → Nat × Json

/-- Anchored match of `-?\d+\.\d+` returning the matched text and the
remainder; each greedy digit run is delimited by a non-digit, so the
match is deterministic. -/
def matchNum (cs : List Char) : Option (List Char × List Char) :=
  let p : Bool × List Char :=
    match cs with
    | c :: t => if c = '-' then (true, t) else (false, cs)
    | [] => (false, cs)
  let d1 := p.snd.takeWhile Char.isDigit
  if d1.isEmpty then none
  else
    match p.snd.drop d1.length with
    | '.' :: cs2 =>
      let d2 := cs2.takeWhile Char.isDigit
      if d2.isEmpty then none
      else
        some ((if p.fst then ['-'] else []) ++ d1 ++ '.' :: d2, cs2.drop d2.length)
    | _ => none

/-- Anchored form of `@(-?\d+\.\d+),(-?\d+\.\d+)` (mapTruth_AI.py line
27): the two captured coordinate strings. -/
def coordAt (cs : List Char) : Option (String × String) :=
  match cs with
  | '@' :: r =>
    (matchNum r).bind fun g1 =>
      match g1.snd with
      | ',' :: r2 => (matchNum r2).map fun g2 => (String.mk g1.fst, String.mk g2.fst)
      | _ => none
  | _ => none

/-- `get_place_id_from_short_url` (mapTruth_AI.py lines 19-60): follow
the redirect, extract coordinates, geocode them; the enclosing
`try/except Exception` turns every failure — including `KeyError` on a
malformed geocoding body — into `None`, which this model reflects by
returning `none` on every non-conforming shape. -/
def get_place_id_from_short_url (env : AIEnv) (short_url api_key : String) : Option String :=
  match env.redirect short_url with
  | .error _ => none
  | .ok final_url =>
    match scanFor coordAt final_url.data with
    | none => none
    | some (lat, lng) =>
      let geo_url := "https://maps.googleapis.com/maps/api/geocode/json?latlng="
        ++ lat ++ "," ++ lng ++ "&key=" ++ api_key
      let resp := env.geocode geo_url
      if resp.fst ≠ 200 then none
      else
        match jsonGet resp.snd "results" with
        | some (Json.arr (r :: _)) =>
          match jsonGet r "place_id" with
          | some (Json.str pid) => some pid
          | _ => none
        | _ => none

/-- The short-URL branch of `extract_place_id` (mapTruth_AI.py lines
66-71): when the URL contains one of the three trigger substrings, run
`get_place_id_from_short_url` and keep its result unless it is falsy
(`None` or the empty string, per `if place_id:`); `none` means the
branch contributes nothing and `extract_place_id` falls through to the
patterns. -/
def shortUrlBranch (env : AIEnv) (url api_key : String) : Option String :=
  if containsSub url "goo.gl" || containsSub url "maps.app.goo.gl"
      || containsSub url "maps.google.com/maps" then
    match get_place_id_from_short_url env url api_key with
    | some pid => if pid = "" then none else some pid
    | none => none
  else none

/-- `extract_place_id` (mapTruth_AI.py lines 63-100): short-URL branch
first (falling through when it yields a falsy value — `None` or the
empty string), then the eight patterns in order, then the 20+
id-character fallback scan, and finally `raise ValueError("Place ID not
found in URL")`. -/
def extract_place_id (env : AIEnv) (url api_key : String) : Except String String :=
  match shortUrlBranch env url api_key with
  | some pid => .ok pid
  | none =>
    match tryPatterns url with
    | some pid => .ok pid
    | none =>
      match scan20 url.data with
      | some pid => .ok pid
      | none => .error "Place ID not found in URL"

/-! Concrete fixtures used by witnesses and counterexamples. -/

/-- A details-API payload in the shape of the spec's end-to-end
scenario. -/
def cafeResult : Json :=
  Json.obj
    [("name", Json.str "Cafe X"),
     ("reviews", Json.arr [Json.obj [("text", Json.str "Great coffee"),
                                     ("author_name", Json.str "Jo")]])]

/-- Details response wrapping `cafeResult` with status `"OK"`. -/
def cafePayload : Json := Json.obj [("status", Json.str "OK"), ("result", cafeResult)]

/-- Details environment that always answers `cafePayload`. -/
def okDetailsEnv : String → Except String Json := fun _ => .ok cafePayload

/-- HTTP environment whose redirect call fails with a network error. -/
def errHttpEnv : HttpEnv := ⟨fun _ => .error "connection error", fun _ => Json.null⟩

/-- HTTP environment whose redirect call resolves to a long URL with an
explicit `place_id` parameter. -/
def okRedirectEnv : HttpEnv :=
  ⟨fun _ => .ok "https://maps.google.com/?place_id=XYZ789", fun _ => Json.null⟩

/-- mapTruth_AI environment with a failing redirect call. -/
def errAIEnv : AIEnv := ⟨fun _ => .error "connection error", fun _ => (0, Json.null)⟩

/-- Model stub returning text that is not JSON. -/
def llmUnparsable : LLM := fun _ _ => .ok "I cannot comply"

/-- A second non-JSON model stub, distinct from `llmUnparsable`. -/
def llmUnparsable2 : LLM := fun _ _ => .ok "still not json"

/-- Model stub returning a well-formed classification with all seven
fields. -/
def llmFullJson : LLM := fun _ _ =>
  .ok "\x7b\"reviewer\": \"Jo\", \"sentiment\": \"positive\", \"specificity\": \"high\", \"authenticity_score\": 4, \"category\": \"Not Fake\", \"recommendation\": \"Go\", \"summary\": \"ok\"\x7d"

/-- Model stub returning valid JSON whose values are outside every
enumeration the spec lists. -/
def llmWild : LLM := fun _ _ =>
  .ok "\x7b\"sentiment\": \"ecstatic\", \"authenticity_score\": 42\x7d"

/-- Model stub returning valid JSON that carries an `original_review`
key. -/
def llmOverride : LLM := fun _ _ => .ok "\x7b\"original_review\": \"HACKED\"\x7d"

/-- Model stub whose invocation raises. -/
def llmDown : LLM := fun _ _ => .error "boom"

/-! Helper lemmas. -/

/-- The `/analyze` review loop is the classification of the non-blank
reviews, in order. -/
theorem analyze_place_reviews_eq (llm : LLM) (reviews : List Json) :
    analyze_place_reviews llm reviews
      = (reviews.filter (fun r => !(isBlankText (reviewText r)))).map
          (fun r => processReview llm (reviewText r) (reviewAuthor r)) := by
  induction reviews with
  | nil => rfl
  | cons r rest ih =>
    by_cases h : isBlankText (reviewText r) <;>
      simp [analyze_place_reviews, h, List.filter_cons, ih]

/-- The console review loop is the entry construction over the non-blank
reviews, in order. -/
theorem console_reviews_analysis_eq (llm : LLM) (reviews : List Json) :
    console_reviews_analysis llm reviews
      = (reviews.filter (fun r => !(isBlankText (reviewText r)))).map
          (fun r => consoleEntry llm (reviewText r)) := by
  induction reviews with
  | nil => rfl
  | cons r rest ih =>
    by_cases h : isBlankText (reviewText r) <;>
      simp [console_reviews_analysis, h, List.filter_cons, ih]

/-! Claim theorems. -/

/-- C9: the `GET /health` handler is a constant function — it returns
`{"status": "healthy", "ollama_connected": true}` for every state of the
model backend, performing no connectivity check (its value does not
depend on the backend environment at all). -/
theorem c9_health_constant (llm llm2 : LLM) :
    health_check llm
        = Json.obj [("status", Json.str "healthy"), ("ollama_connected", Json.bool true)]
      ∧ health_check llm = health_check llm2 :=
  ⟨rfl, rfl⟩

/-- C4: both orchestrators classify only reviews whose body is non-empty
after stripping whitespace — the output length equals the number of
non-blank reviews, hence is at most the number of input reviews. -/
theorem c4_blank_reviews_filtered (llm : LLM) (details : Json) :
    (analyze_place_reviews llm (detailsReviews details)).length
        = ((detailsReviews details).filter (fun r => !(isBlankText (reviewText r)))).length
      ∧ (analyze_place_reviews llm (detailsReviews details)).length
        ≤ (detailsReviews details).length
      ∧ (console_reviews_analysis llm (detailsReviews details)).length
        ≤ (detailsReviews details).length := by
  refine ⟨?_, ?_, ?_⟩ <;>
    simp only [analyze_place_reviews_eq, console_reviews_analysis_eq, List.length_map]
  · exact List.length_filter_le _ _
  · exact List.length_filter_le _ _

/-- C2: `fetch_place_details` fails (returns `None`) exactly when the
HTTP call fails or the upstream body's status field differs from `"OK"`;
on status `"OK"` it returns the upstream `result` object verbatim. -/
theorem c2_fetch_details_status :
    (∀ env place_id api_key e, env (detailsUrl place_id api_key) = Except.error e →
        fetch_place_details env place_id api_key = none)
  ∧ (∀ env place_id api_key data, env (detailsUrl place_id api_key) = Except.ok data →
        (fetch_place_details env place_id api_key = none
          ↔ jsonGet data "status" ≠ some (Json.str "OK")))
  ∧ (∀ env place_id api_key data res, env (detailsUrl place_id api_key) = Except.ok data →
        jsonGet data "status" = some (Json.str "OK") →
        jsonGet data "result" = some res →
        fetch_place_details env place_id api_key = some res) := by
  refine ⟨?_, ?_, ?_⟩
  · intro env place_id api_key e he
    simp [fetch_place_details, he]
  · intro env place_id api_key data he
    simp only [fetch_place_details, he]
    cases hs : jsonGet data "status" with
    | none => simp [hs]
    | some v =>
      cases v with
      | str s =>
        by_cases hOK : s = "OK"
        · subst hOK; simp
        · simp [hOK]
      | null => simp
      | bool b => simp
      | num n => simp
      | arr l => simp
      | obj kvs => simp
  · intro env place_id api_key data res he hs hr
    simp [fetch_place_details, he, hs, hr]

/-- C2 witness: on the spec's end-to-end payload the fetch succeeds and
returns the upstream `result` verbatim. -/
theorem c2_fetch_details_status_witness :
    okDetailsEnv (detailsUrl "PID" "KEY") = Except.ok cafePayload
  ∧ jsonGet cafePayload "status" = some (Json.str "OK")
  ∧ jsonGet cafePayload "result" = some cafeResult
  ∧ fetch_place_details okDetailsEnv "PID" "KEY" = some cafeResult :=
  ⟨rfl, rfl, rfl,
    c2_fetch_details_status.2.2 okDetailsEnv "PID" "KEY" cafePayload cafeResult rfl rfl rfl⟩

/-- C3 counterexample: the URL `https://goo.gl/maps?place_id=ABC123`
contains an explicit `place_id` parameter (the same regex that the claim
relies on matches it with value `ABC123`), yet `get_place_id_from_url`
performs a redirect-following HTTP call on it — one outbound call, not
zero — and, when that call fails, returns `None` instead of the
parameter value. -/
theorem c3_counterexample :
    scanFor (patAt 1) "https://goo.gl/maps?place_id=ABC123".data = some "ABC123"
  ∧ get_place_id_from_url errHttpEnv "https://goo.gl/maps?place_id=ABC123" "KEY"
      = ⟨none, 1, 0⟩ :=
  ⟨rfl, rfl⟩

/-- C3 (amended): for every URL that does not contain a short-link
domain substring (`goo.gl` / `maps.app.goo.gl`), if the URL contains an
explicit `place_id` parameter then `get_place_id_from_url` returns that
parameter's value directly with zero outbound calls of either kind. -/
theorem c3_place_id_param_direct (env : HttpEnv) (url api_key pid : String)
    (h1 : containsSub url "goo.gl" = false)
    (h2 : containsSub url "maps.app.goo.gl" = false)
    (h3 : scanFor (patAt 1) url.data = some pid) :
    get_place_id_from_url env url api_key = ⟨some pid, 0, 0⟩ := by
  simp [get_place_id_from_url, h1, h2, resolveRest, h3]

/-- C3 witness: the spec's end-to-end input URL resolves to `ABC123`
with zero HTTP calls. -/
theorem c3_place_id_param_direct_witness :
    containsSub "https://maps.google.com/?place_id=ABC123" "goo.gl" = false
  ∧ containsSub "https://maps.google.com/?place_id=ABC123" "maps.app.goo.gl" = false
  ∧ scanFor (patAt 1) "https://maps.google.com/?place_id=ABC123".data = some "ABC123"
  ∧ get_place_id_from_url errHttpEnv "https://maps.google.com/?place_id=ABC123" "KEY"
      = ⟨some "ABC123", 0, 0⟩ :=
  ⟨rfl, rfl, rfl,
    c3_place_id_param_direct errHttpEnv "https://maps.google.com/?place_id=ABC123" "KEY"
      "ABC123" rfl rfl rfl⟩

/-- C6: on every short-link-domain URL, `get_place_id_from_url` performs
exactly one redirect-following call; if that call fails the whole
resolution returns `None` immediately (no retry, no further calls), and
if it succeeds the remaining extraction rules run on the resolved final
URL. -/
theorem c6_short_link_single_redirect (env : HttpEnv) (url api_key : String)
    (h : (containsSub url "goo.gl" || containsSub url "maps.app.goo.gl") = true) :
    (get_place_id_from_url env url api_key).redirectCalls = 1
  ∧ (∀ e, env.redirect url = Except.error e →
        get_place_id_from_url env url api_key = ⟨none, 1, 0⟩)
  ∧ (∀ url2, env.redirect url = Except.ok url2 →
        get_place_id_from_url env url api_key
          = ⟨(resolveRest env api_key url2).fst, 1, (resolveRest env api_key url2).snd⟩) := by
  refine ⟨?_, ?_, ?_⟩
  · cases henv : env.redirect url <;> simp [get_place_id_from_url, h, henv]
  · intro e henv
    simp [get_place_id_from_url, h, henv]
  · intro url2 henv
    simp [get_place_id_from_url, h, henv]

/-- C6 witness: a `goo.gl` URL with a successful redirect makes exactly
one redirect call and extracts the id from the resolved URL. -/
theorem c6_short_link_single_redirect_witness :
    (containsSub "https://goo.gl/abc" "goo.gl"
        || containsSub "https://goo.gl/abc" "maps.app.goo.gl") = true
  ∧ okRedirectEnv.redirect "https://goo.gl/abc"
      = Except.ok "https://maps.google.com/?place_id=XYZ789"
  ∧ get_place_id_from_url okRedirectEnv "https://goo.gl/abc" "KEY"
      = ⟨some "XYZ789", 1, 0⟩ := by
  refine ⟨rfl, rfl, ?_⟩
  have h := (c6_short_link_single_redirect okRedirectEnv "https://goo.gl/abc" "KEY" rfl).2.2
    "https://maps.google.com/?place_id=XYZ789" rfl
  rw [h]
  rfl

/-- Every token `scan20` returns is a run of at least 20 id-characters
(alphanumeric, underscore or hyphen). -/
theorem scan20_spec (cs : List Char) (tok : String) (h : scan20 cs = some tok) :
    tok.length ≥ 20 ∧ tok.data.all isIdChar = true := by
  induction cs with
  | nil => simp [scan20] at h
  | cons c rest ih =>
    rw [scan20] at h
    split at h
    · rename_i hlen
      obtain rfl : String.mk ((c :: rest).takeWhile isIdChar) = tok := by
        injection h
      refine ⟨hlen, ?_⟩
      simp only [List.all_eq_true]
      intro x hx
      exact List.mem_takeWhile_imp hx
    · exact ih h

/-- C7 counterexample: on
`https://example.org/AAAAAAAAAAAAAAAAAAAAAAAA` — a URL on which the
explicit-parameter and place-name rules fail and which contains a
24-character alphanumeric token — `get_place_id_from_url`
(mapTruth.py / mapTruth_fastapi.py, two of the claim's three cited
implementations) returns `None` without any fallback token scan, even
though `scan20` would have found the token. -/
theorem c7_counterexample :
    scan20 "https://example.org/AAAAAAAAAAAAAAAAAAAAAAAA".data
        = some "AAAAAAAAAAAAAAAAAAAAAAAA"
  ∧ ("AAAAAAAAAAAAAAAAAAAAAAAA" : String).length ≥ 20
  ∧ get_place_id_from_url errHttpEnv
        "https://example.org/AAAAAAAAAAAAAAAAAAAAAAAA" "KEY" = ⟨none, 0, 0⟩ :=
  ⟨rfl, by decide, rfl⟩

/-- C7 (amended): the 20-plus-character fallback scan exists only in the
mapTruth_AI variant.  There, whenever the short-URL branch contributes
nothing — because it is not triggered, or because it runs and yields a
falsy result (failed redirect, no coordinates, failed geocoding) — and
all eight URL patterns fail, `extract_place_id` returns the first run of
at least 20 alphanumeric/underscore/hyphen characters as the probable
identifier, and raises `ValueError("Place ID not found in URL")` exactly
when no such run exists. -/
theorem c7_fallback_scan (env : AIEnv) (url api_key : String)
    (hshort : shortUrlBranch env url api_key = none)
    (hpat : tryPatterns url = none) :
    (∀ tok, scan20 url.data = some tok →
        extract_place_id env url api_key = Except.ok tok
          ∧ tok.length ≥ 20 ∧ tok.data.all isIdChar = true)
  ∧ (scan20 url.data = none →
        extract_place_id env url api_key = Except.error "Place ID not found in URL") := by
  constructor
  · intro tok htok
    refine ⟨?_, scan20_spec url.data tok htok⟩
    simp [extract_place_id, hshort, hpat, htok]
  · intro htok
    simp [extract_place_id, hshort, hpat, htok]

/-- C7 witness: a long-form `maps.google.com/maps/...` URL triggers the
short-URL branch, whose redirect call fails, so the branch yields
nothing; the patterns find no match and the fallback returns the
27-character token. -/
theorem c7_fallback_scan_witness :
    shortUrlBranch errAIEnv
        "https://maps.google.com/maps/ChIJN1t-tDeuEmsRUsoyG83frY4" "KEY" = none
  ∧ tryPatterns "https://maps.google.com/maps/ChIJN1t-tDeuEmsRUsoyG83frY4" = none
  ∧ scan20 "https://maps.google.com/maps/ChIJN1t-tDeuEmsRUsoyG83frY4".data
      = some "ChIJN1t-tDeuEmsRUsoyG83frY4"
  ∧ extract_place_id errAIEnv
        "https://maps.google.com/maps/ChIJN1t-tDeuEmsRUsoyG83frY4" "KEY"
      = Except.ok "ChIJN1t-tDeuEmsRUsoyG83frY4" :=
  ⟨rfl, rfl, rfl,
    ((c7_fallback_scan errAIEnv "https://maps.google.com/maps/ChIJN1t-tDeuEmsRUsoyG83frY4"
        "KEY" rfl rfl).1 "ChIJN1t-tDeuEmsRUsoyG83frY4" rfl).1⟩

/-- Mapping an override of a different key over the members does not
change a lookup. -/
theorem lookupList_map_override (d : List (String × Json)) (k k' : String) (v : Json)
    (h : k' ≠ k) :
    lookupList (d.map (fun kv => if kv.fst = k' then (k', v) else kv)) k = lookupList d k := by
  induction d with
  | nil => rfl
  | cons a t ih =>
    obtain ⟨ka, va⟩ := a
    by_cases hk : ka = k'
    · subst hk
      rw [List.map_cons, if_pos rfl, lookupList, lookupList, if_neg h, if_neg h, ih]
    · rw [List.map_cons, if_neg hk, lookupList, lookupList, ih]

/-- Appending a binding for a different key does not change a lookup. -/
theorem lookupList_append_ne (d : List (String × Json)) (k k' : String) (v : Json)
    (h : k' ≠ k) : lookupList (d ++ [(k', v)]) k = lookupList d k := by
  induction d with
  | nil => simp [lookupList, h]
  | cons a t ih =>
    obtain ⟨ka, va⟩ := a
    by_cases hka : ka = k <;> simp [lookupList, hka, ih]

/-- Inserting a binding for a different key does not change a lookup. -/
theorem lookupList_dictInsert_ne (d : List (String × Json)) (k k' : String) (v : Json)
    (h : k' ≠ k) : lookupList (dictInsert d k' v) k = lookupList d k := by
  unfold dictInsert
  split
  · exact lookupList_map_override d k k' v h
  · exact lookupList_append_ne d k k' v h

/-- Updating with a member list that has no binding for `k` does not
change the lookup of `k`. -/
theorem lookupList_dictUpdate_none (ms : List (String × Json)) (d : List (String × Json))
    (k : String) (h : lookupList ms k = none) :
    lookupList (dictUpdate d ms) k = lookupList d k := by
  induction ms generalizing d with
  | nil => rfl
  | cons a t ih =>
    obtain ⟨ka, va⟩ := a
    rw [lookupList] at h
    by_cases hka : ka = k
    · simp [hka] at h
    · rw [if_neg hka] at h
      show lookupList (dictUpdate (dictInsert d ka va) t) k = lookupList d k
      rw [ih (dictInsert d ka va) h, lookupList_dictInsert_ne d k ka va hka]

/-- C8 counterexample: in the console variant, the dict literal
`{"original_review": review_text, **parsed_analysis}` lets the parsed
model output override the stored review text — with a model response of
`{"original_review": "HACKED"}` the entry for the review
`"Nice place"` stores `"HACKED"`, not the input text. -/
theorem c8_counterexample :
    jsonGet (consoleEntry llmOverride "Nice place") "original_review"
        = some (Json.str "HACKED")
  ∧ some (Json.str "HACKED") ≠ some (Json.str "Nice place") :=
  ⟨rfl, by simp⟩

/-- C8 (amended): the service variant always stores the input review
text as `original_review` (its outputs' `original_review` fields are
exactly the non-blank input texts, in order); the console variant stores
it provided the parsed model JSON does not itself bind an
`original_review` key — including the whole parse-failure branch, whose
member list binds only `raw_output`. -/
theorem c8_original_review_preserved :
    (∀ (llm : LLM) (reviews : List Json),
      (analyze_place_reviews llm reviews).map (fun ra => ra.original_review)
        = ((reviews.filter (fun r => !(isBlankText (reviewText r)))).map reviewText))
  ∧ (∀ (llm : LLM) (t : String) (kvs : List (String × Json)),
      json_loads (analyze_review llm t "Anonymous") = some (Json.obj kvs) →
      lookupList kvs "original_review" = none →
      jsonGet (consoleEntry llm t) "original_review" = some (Json.str t))
  ∧ (∀ (llm : LLM) (t : String),
      json_loads (analyze_review llm t "Anonymous") = none →
      jsonGet (consoleEntry llm t) "original_review" = some (Json.str t)) := by
  refine ⟨?_, ?_, ?_⟩
  · intro llm reviews
    rw [analyze_place_reviews_eq, List.map_map]
    rfl
  · intro llm t kvs hp hnone
    simp only [consoleEntry, hp, jsonGet]
    rw [lookupList_dictUpdate_none kvs _ _ hnone]
    rfl
  · intro llm t hp
    simp only [consoleEntry, hp, jsonGet]
    rw [lookupList_dictUpdate_none _ _ _ (by simp [lookupList])]
    rfl

/-- C8 witness: a parse-failure entry keeps the original text. -/
theorem c8_original_review_preserved_witness :
    json_loads (analyze_review llmUnparsable "Great coffee" "Anonymous") = none
  ∧ jsonGet (consoleEntry llmUnparsable "Great coffee") "original_review"
      = some (Json.str "Great coffee") :=
  ⟨rfl, c8_original_review_preserved.2.2 llmUnparsable "Great coffee" rfl⟩

/-- C1 counterexample: on the unparsable model response
`"I cannot comply"` the returned `ReviewAnalysis` is the pure-sentinel
record — it does not carry the unparsed model text under any field (the
pydantic model has no `raw_output` field), as witnessed by two distinct
unparsable responses producing identical results. -/
theorem c1_counterexample :
    processReview llmUnparsable "Great coffee" "Jo"
        = ⟨"Jo", "unknown", "unknown", 5, "Unknown", "Unknown", "Analysis failed", "Great coffee"⟩
  ∧ processReview llmUnparsable "Great coffee" "Jo"
        = processReview llmUnparsable2 "Great coffee" "Jo"
  ∧ llmUnparsable "Great coffee" "Jo" ≠ llmUnparsable2 "Great coffee" "Jo" :=
  ⟨rfl, rfl, by simp [llmUnparsable, llmUnparsable2]⟩

/-- C1 (amended): when the model response parses as a JSON object
containing all the named fields (with their expected types), the
`ReviewAnalysis` carries exactly those parsed values plus the original
review text; when the response is unparsable, it consists of the
sentinel values only — the unparsed model text is put under `raw_output`
in the intermediate dict but is not carried into the returned
`ReviewAnalysis`.  In both branches the step returns normally. -/
theorem c1_classify_parse_behavior :
    (∀ (llm : LLM) (t n : String) (kvs : List (String × Json))
        (rv sv pv : String) (sc : Int) (cv rc sm : String),
      json_loads (analyze_review llm t n) = some (Json.obj kvs) →
      lookupList kvs "reviewer" = some (Json.str rv) →
      lookupList kvs "sentiment" = some (Json.str sv) →
      lookupList kvs "specificity" = some (Json.str pv) →
      lookupList kvs "authenticity_score" = some (Json.num sc) →
      lookupList kvs "category" = some (Json.str cv) →
      lookupList kvs "recommendation" = some (Json.str rc) →
      lookupList kvs "summary" = some (Json.str sm) →
      processReview llm t n = ⟨rv, sv, pv, sc, cv, rc, sm, t⟩)
  ∧ (∀ (llm : LLM) (t n : String),
      json_loads (analyze_review llm t n) = none →
      processReview llm t n
        = ⟨n, "unknown", "unknown", 5, "Unknown", "Unknown", "Analysis failed", t⟩) := by
  constructor
  · intro llm t n kvs rv sv pv sc cv rc sm hp h1 h2 h3 h4 h5 h6 h7
    simp [processReview, hp, buildReviewAnalysis, getStrD, getIntD, jsonGet,
      h1, h2, h3, h4, h5, h6, h7]
  · intro llm t n hp
    simp [processReview, hp, sentinelParsed, buildReviewAnalysis, getStrD, getIntD,
      jsonGet, lookupList]

set_option maxRecDepth 4000 in
/-- C1 witness: a fully populated JSON response maps field-for-field
onto the returned record. -/
theorem c1_classify_parse_behavior_witness :
    json_loads (analyze_review llmFullJson "Great coffee" "Jo")
        = some (Json.obj
            [("reviewer", Json.str "Jo"), ("sentiment", Json.str "positive"),
             ("specificity", Json.str "high"), ("authenticity_score", Json.num 4),
             ("category", Json.str "Not Fake"), ("recommendation", Json.str "Go"),
             ("summary", Json.str "ok")])
  ∧ processReview llmFullJson "Great coffee" "Jo"
      = ⟨"Jo", "positive", "high", 4, "Not Fake", "Go", "ok", "Great coffee"⟩ :=
  ⟨rfl,
    c1_classify_parse_behavior.1 llmFullJson "Great coffee" "Jo" _
      "Jo" "positive" "high" 4 "Not Fake" "Go" "ok" rfl rfl rfl rfl rfl rfl rfl rfl⟩

set_option maxRecDepth 4000 in
/-- C5 counterexample: the pipeline performs no validation — a model
response with sentiment `"ecstatic"` and authenticity score `42` flows
verbatim into the resulting `ReviewAnalysis`, violating both the 1-5
bound and the sentiment enumeration the claim asserts. -/
theorem c5_counterexample :
    (processReview llmWild "Great" "Jo").sentiment = "ecstatic"
  ∧ (processReview llmWild "Great" "Jo").authenticity_score = 42
  ∧ ¬(1 ≤ (processReview llmWild "Great" "Jo").authenticity_score
        ∧ (processReview llmWild "Great" "Jo").authenticity_score ≤ 5)
  ∧ ¬((processReview llmWild "Great" "Jo").sentiment = "positive"
        ∨ (processReview llmWild "Great" "Jo").sentiment = "negative"
        ∨ (processReview llmWild "Great" "Jo").sentiment = "neutral") := by
  refine ⟨rfl, rfl, ?_, ?_⟩
  · intro hcontra
    have h42 : (processReview llmWild "Great" "Jo").authenticity_score = 42 := rfl
    omega
  · intro hcontra
    have hs : (processReview llmWild "Great" "Jo").sentiment = "ecstatic" := rfl
    rcases hcontra with h | h | h <;> rw [hs] at h <;> simp at h

/-- C5 (amended): classification fields are taken verbatim from the
model's parsed JSON with no validation against the claimed enumerations
or score bounds; the fixed sentinels (`"unknown"`, `"unknown"`, `5`,
`"Unknown"`, `"Unknown"`) are substituted only when the response is
unparsable (or a field is absent). -/
theorem c5_passthrough_no_validation :
    (∀ (llm : LLM) (t n : String) (kvs : List (String × Json))
        (sv pv : String) (sc : Int) (cv rc : String),
      json_loads (analyze_review llm t n) = some (Json.obj kvs) →
      lookupList kvs "sentiment" = some (Json.str sv) →
      lookupList kvs "specificity" = some (Json.str pv) →
      lookupList kvs "authenticity_score" = some (Json.num sc) →
      lookupList kvs "category" = some (Json.str cv) →
      lookupList kvs "recommendation" = some (Json.str rc) →
      (processReview llm t n).sentiment = sv
        ∧ (processReview llm t n).specificity = pv
        ∧ (processReview llm t n).authenticity_score = sc
        ∧ (processReview llm t n).category = cv
        ∧ (processReview llm t n).recommendation = rc)
  ∧ (∀ (llm : LLM) (t n : String),
      json_loads (analyze_review llm t n) = none →
      (processReview llm t n).sentiment = "unknown"
        ∧ (processReview llm t n).specificity = "unknown"
        ∧ (processReview llm t n).authenticity_score = 5
        ∧ (processReview llm t n).category = "Unknown"
        ∧ (processReview llm t n).recommendation = "Unknown") := by
  constructor
  · intro llm t n kvs sv pv sc cv rc hp h2 h3 h4 h5 h6
    refine ⟨?_, ?_, ?_, ?_, ?_⟩ <;>
      simp [processReview, hp, buildReviewAnalysis, getStrD, getIntD, jsonGet,
        h2, h3, h4, h5, h6]
  · intro llm t n hp
    refine ⟨?_, ?_, ?_, ?_, ?_⟩ <;>
      simp [processReview, hp, sentinelParsed, buildReviewAnalysis, getStrD, getIntD,
        jsonGet, lookupList]

set_option maxRecDepth 4000 in
/-- C5 witness: a well-formed response's five classification fields pass
through verbatim. -/
theorem c5_passthrough_no_validation_witness :
    json_loads (analyze_review llmFullJson "Great coffee" "Jo")
        = some (Json.obj
            [("reviewer", Json.str "Jo"), ("sentiment", Json.str "positive"),
             ("specificity", Json.str "high"), ("authenticity_score", Json.num 4),
             ("category", Json.str "Not Fake"), ("recommendation", Json.str "Go"),
             ("summary", Json.str "ok")])
  ∧ (processReview llmFullJson "Great coffee" "Jo").sentiment = "positive"
  ∧ (processReview llmFullJson "Great coffee" "Jo").authenticity_score = 4 :=
  ⟨rfl,
    (c5_passthrough_no_validation.1 llmFullJson "Great coffee" "Jo" _
      "positive" "high" 4 "Not Fake" "Go" rfl rfl rfl rfl rfl rfl).1,
    (c5_passthrough_no_validation.1 llmFullJson "Great coffee" "Jo" _
      "positive" "high" 4 "Not Fake" "Go" rfl rfl rfl rfl rfl rfl).2.2.1⟩


/-- Hex digits emitted by `hexDigitChar` decode to their value. -/
theorem hexVal_hexDigitChar (n : Nat) (h : n < 16) :
    hexVal (hexDigitChar n) = some n := by
  interval_cases n <;> rfl

/-- Unfolding step of the string parser: closing quote. -/
theorem parseStr_quote (acc rest : List Char) :
    parseStrAux acc ('"' :: rest) = some (String.mk acc.reverse, rest) := by
  rw [parseStrAux.eq_def]; simp

/-- Unfolding step of the string parser: two-character escape. -/
theorem parseStr_twochar (acc cs : List Char) (e c2 : Char)
    (hu : e ≠ 'u') (h : escDecode e = some c2) :
    parseStrAux acc ('\\' :: e :: cs) = parseStrAux (c2 :: acc) cs := by
  rw [parseStrAux.eq_def]; simp [hu, h]

/-- Unfolding step of the string parser: `\uXXXX` escape. -/
theorem parseStr_hex (acc cs : List Char) (h1 h2 h3 h4 : Char) (a b c2 d : Nat)
    (k1 : hexVal h1 = some a) (k2 : hexVal h2 = some b)
    (k3 : hexVal h3 = some c2) (k4 : hexVal h4 = some d) :
    parseStrAux acc ('\\' :: 'u' :: h1 :: h2 :: h3 :: h4 :: cs)
      = parseStrAux (Char.ofNat (((a * 16 + b) * 16 + c2) * 16 + d) :: acc) cs := by
  rw [parseStrAux.eq_def]; simp [k1, k2, k3, k4]

/-- Unfolding step of the string parser: ordinary character. -/
theorem parseStr_plain (acc cs : List Char) (c : Char)
    (n1 : c ≠ '"') (n2 : c ≠ '\\') (n3 : ¬ c.toNat < 32) :
    parseStrAux acc (c :: cs) = parseStrAux (c :: acc) cs := by
  rw [parseStrAux.eq_def]; simp [n1, n2, n3]

/-- Round trip of the string escaper through the string parser: the
escaped character list followed by a closing quote parses back to the
original characters. -/
theorem parseStrAux_escape (cs : List Char) : ∀ (acc rest : List Char),
    parseStrAux acc (cs.flatMap pyJsonEscape ++ '"' :: rest)
      = some (String.mk (acc.reverse ++ cs), rest) := by
  induction cs with
  | nil =>
    intro acc rest
    simp only [List.flatMap_nil, List.nil_append]
    rw [parseStr_quote]
    simp
  | cons c cs ih =>
    intro acc rest
    rw [List.flatMap_cons, List.append_assoc]
    by_cases hq : c = '"'
    · subst hq
      rw [show pyJsonEscape '"' = ['\\', '"'] from rfl]
      simp only [List.cons_append, List.nil_append]
      rw [parseStr_twochar _ _ '"' '"' (by decide) rfl, ih]
      simp
    · by_cases hb : c = '\\'
      · subst hb
        rw [show pyJsonEscape '\\' = ['\\', '\\'] from rfl]
        simp only [List.cons_append, List.nil_append]
        rw [parseStr_twochar _ _ '\\' '\\' (by decide) rfl, ih]
        simp
      · by_cases h8 : c = Char.ofNat 8
        · subst h8
          rw [show pyJsonEscape (Char.ofNat 8) = ['\\', 'b'] from rfl]
          simp only [List.cons_append, List.nil_append]
          rw [parseStr_twochar _ _ 'b' (Char.ofNat 8) (by decide) rfl, ih]
          simp
        · by_cases h12 : c = Char.ofNat 12
          · subst h12
            rw [show pyJsonEscape (Char.ofNat 12) = ['\\', 'f'] from rfl]
            simp only [List.cons_append, List.nil_append]
            rw [parseStr_twochar _ _ 'f' (Char.ofNat 12) (by decide) rfl, ih]
            simp
          · by_cases h10 : c = Char.ofNat 10
            · subst h10
              rw [show pyJsonEscape (Char.ofNat 10) = ['\\', 'n'] from rfl]
              simp only [List.cons_append, List.nil_append]
              rw [parseStr_twochar _ _ 'n' (Char.ofNat 10) (by decide) rfl, ih]
              simp
            · by_cases h13 : c = Char.ofNat 13
              · subst h13
                rw [show pyJsonEscape (Char.ofNat 13) = ['\\', 'r'] from rfl]
                simp only [List.cons_append, List.nil_append]
                rw [parseStr_twochar _ _ 'r' (Char.ofNat 13) (by decide) rfl, ih]
                simp
              · by_cases h9 : c = Char.ofNat 9
                · subst h9
                  rw [show pyJsonEscape (Char.ofNat 9) = ['\\', 't'] from rfl]
                  simp only [List.cons_append, List.nil_append]
                  rw [parseStr_twochar _ _ 't' (Char.ofNat 9) (by decide) rfl, ih]
                  simp
                · by_cases hlt : c.toNat < 32
                  · have hesc : pyJsonEscape c
                        = ['\\', 'u', '0', '0',
                           hexDigitChar (c.toNat / 16), hexDigitChar (c.toNat % 16)] := by
                      rw [pyJsonEscape, if_neg hq, if_neg hb, if_neg h8, if_neg h12,
                        if_neg h10, if_neg h13, if_neg h9, if_pos hlt]
                    rw [hesc]
                    simp only [List.cons_append, List.nil_append]
                    rw [parseStr_hex _ _ '0' '0'
                      (hexDigitChar (c.toNat / 16)) (hexDigitChar (c.toNat % 16))
                      0 0 (c.toNat / 16) (c.toNat % 16)
                      rfl rfl (hexVal_hexDigitChar _ (by omega))
                      (hexVal_hexDigitChar _ (by omega))]
                    have hval : ((0 * 16 + 0) * 16 + c.toNat / 16) * 16 + c.toNat % 16
                        = c.toNat := by omega
                    rw [hval, Char.ofNat_toNat, ih]
                    simp
                  · have hesc : pyJsonEscape c = [c] := by
                      rw [pyJsonEscape, if_neg hq, if_neg hb, if_neg h8, if_neg h12,
                        if_neg h10, if_neg h13, if_neg h9, if_neg hlt]
                    rw [hesc]
                    simp only [List.cons_append, List.nil_append]
                    rw [parseStr_plain _ _ _ hq hb hlt, ih]
                    simp

/-- Unfolding step of the whitespace skipper: non-whitespace head. -/
theorem skipWs_keep (c : Char) (cs : List Char)
    (h : (c == ' ' || c == '\t' || c == '\n' || c == '\r') = false) :
    skipWs (c :: cs) = c :: cs := by
  rw [skipWs.eq_def]; simp [h]

/-- Unfolding step of the whitespace skipper: space head. -/
theorem skipWs_space (cs : List Char) : skipWs (' ' :: cs) = skipWs cs := by
  rw [skipWs.eq_def]; simp

/-- The serialized error object parses back, for every message and any
spare fuel. -/
theorem parseVal_errJson (msg : String) (f : Nat) :
    parseVal (f + 3) (errJsonChars msg)
      = some (Json.obj [("error", Json.str msg)], []) := by
  have hshape : errJsonChars msg
      = '\x7b' :: '"' :: 'e' :: 'r' :: 'r' :: 'o' :: 'r' :: '"' :: ':' :: ' ' :: '"'
          :: (msg.data.flatMap pyJsonEscape ++ '"' :: '\x7d' :: []) := rfl
  rw [hshape]
  rw [parseVal.eq_def]
  simp [skipWs_keep, skipWs_space]
  rw [parseMembers.eq_def]
  simp [skipWs_keep, skipWs_space]
  rw [parseStr_plain _ _ 'e' (by decide) (by decide) (by decide),
    parseStr_plain _ _ 'r' (by decide) (by decide) (by decide),
    parseStr_plain _ _ 'r' (by decide) (by decide) (by decide),
    parseStr_plain _ _ 'o' (by decide) (by decide) (by decide),
    parseStr_plain _ _ 'r' (by decide) (by decide) (by decide),
    parseStr_quote]
  simp only [List.reverse_cons, List.reverse_nil, List.nil_append, List.cons_append]
  simp [skipWs_keep, skipWs_space]
  rw [parseVal.eq_def]
  simp [skipWs_keep, skipWs_space]
  rw [parseStrAux_escape]
  simp [skipWs_keep, dictInsert]

/-- `json.loads` always succeeds on `json.dumps({"error": msg})` and
recovers the one-key object. -/
theorem json_loads_dumps_error (msg : String) :
    json_loads (json_dumps_error msg) = some (Json.obj [("error", Json.str msg)]) := by
  have hdata : (json_dumps_error msg).data = errJsonChars msg := rfl
  have hlen : (errJsonChars msg).length + 1
      = ((msg.data.flatMap pyJsonEscape).length + 11) + 3 := by
    simp [errJsonChars]
  rw [json_loads, hdata, hlen, parseVal_errJson]
  simp [skipWs]

/-- C10: when the model invocation raises, `analyze_review` returns
`json.dumps({"error": str(e)})`, which always parses successfully as
JSON — so the unparsable-response sentinel branch (the one that records
`raw_output`) is never taken for invocation failures, and the resulting
`ReviewAnalysis` is filled entirely from the per-field `.get` defaults
(note `summary = "No analysis available"`, the `.get` default, not the
sentinel branch's `"Analysis failed"`). -/
theorem c10_error_json_always_parses (llm : LLM) (e t n : String)
    (h : llm t n = Except.error e) :
    json_loads (analyze_review llm t n) = some (Json.obj [("error", Json.str e)])
  ∧ processReview llm t n
      = ⟨n, "unknown", "unknown", 5, "Unknown", "Unknown", "No analysis available", t⟩ := by
  have ha : analyze_review llm t n = json_dumps_error e := by
    simp [analyze_review, h]
  constructor
  · rw [ha, json_loads_dumps_error]
  · simp [processReview, ha, json_loads_dumps_error, buildReviewAnalysis,
      getStrD, getIntD, jsonGet, lookupList]

/-- C10 witness: a concrete raising backend produces the all-defaults
record with no trace of a raw-output sentinel. -/
theorem c10_error_json_always_parses_witness :
    llmDown "Great coffee" "Jo" = Except.error "boom"
  ∧ json_loads (analyze_review llmDown "Great coffee" "Jo")
      = some (Json.obj [("error", Json.str "boom")])
  ∧ processReview llmDown "Great coffee" "Jo"
      = ⟨"Jo", "unknown", "unknown", 5, "Unknown", "Unknown", "No analysis available",
          "Great coffee"⟩ :=
  ⟨rfl,
    (c10_error_json_always_parses llmDown "boom" "Great coffee" "Jo" rfl).1,
    (c10_error_json_always_parses llmDown "boom" "Great coffee" "Jo" rfl).2⟩
